import Mathlib

/-!
Shallow embedding of `src/libipc/msgq_posix.c` (gear-lib), the POSIX
message-queue IPC backend.

Modelling conventions:
* C strings (queue names, message payloads) are `List Char` (`CStr`);
  `strncpy dst src n` is `List.take n`, `strcmp` equality is list equality.
* The message-queue namespace is a `World` holding the list of queue names
  that currently exist.  A read descriptor is modelled by the list of
  messages pending in the queue it refers to (field `mq_rd` of `mq_ctx`).
* Every syscall the C code performs is recorded in an event trace
  (`List Ev`), so frame conditions ("unlinks only ...", "exactly one
  receive") are statements about the trace.
* Failures that come from the OS and are not determined by the modelled
  state (semaphore init, buffer allocation, `mq_notify` registration)
  are explicit boolean oracle parameters.
* The one-shot `mq_notify` registration is the boolean `armed` in
  `mq_ctx`: a firing consumes it, a successful `_mq_notify_update`
  re-establishes it.
* The blocking `sem_wait` in `_mq_accept` is modelled by returning `none`
  when the gate count is zero (the call never returns); `sem_timedwait`
  in `_mq_connect` takes the number of gate signals delivered before the
  deadline as a parameter.
-/

/-- C strings: a character array, compared with `strcmp` = list equality. -/
abbrev CStr := List Char

/-- from `libipc.h` via `msgq_posix.c`: `enum ipc_role`. -/
inductive ipc_role
  | IPC_SERVER
  | IPC_CLIENT
deriving DecidableEq, Repr

/-- errno values relevant to the modelled syscalls. -/
inductive Errno
  | ENOENT
  | EEXIST
  | ETIMEDOUT
  | EMSGSIZE
  | EAGAIN
deriving DecidableEq, Repr

/-- `#define MQ_MAXMSG 5` -/
def MQ_MAXMSG : Nat := 5

/-- `#define MQ_MSGSIZE 1024` -/
def MQ_MSGSIZE : Nat := 1024

/-- `#define MQ_MSG_PRIO 10` -/
def MQ_MSG_PRIO : Nat := 10

/-- `#define MAX_MQ_NAME 256` -/
def MAX_MQ_NAME : Nat := 256

/-- Modelled from the spec: `MAX_IPC_MESSAGE_SIZE` is defined in the header
`libipc.h`, which is not under src/.  The spec fixes a single maximum
message size bounding receive buffers; the code's comment at `on_recv`
notes the receive length must be at least `mq_msgsize` (1024). -/
def MAX_IPC_MESSAGE_SIZE : Nat := 1024

/-- the hard-coded client handshake timeout: `uint32_t timeout = 5000;//msec` -/
def connectTimeoutMs : Nat := 5000

/-- `struct timeval` (fields as delivered by a valid `gettimeofday`). -/
structure timeval where
  tv_sec : Nat
  tv_usec : Nat
deriving DecidableEq, Repr

/-- `struct timespec`, the absolute deadline handed to `sem_timedwait`. -/
structure timespec where
  tv_sec : Nat
  tv_nsec : Nat
deriving DecidableEq, Repr

/-- microseconds represented by a `timeval`. -/
def timevalUs (t : timeval) : Nat := t.tv_sec * 1000000 + t.tv_usec

/-- nanoseconds represented by a `timespec`. -/
def timespecNs (t : timespec) : Nat := t.tv_sec * 1000000000 + t.tv_nsec

/-- `strncpy(dst, src, n)` for a `dst` buffer of size `n`: keeps the first
`n` characters of the source. -/
def strncpyL (n : Nat) (src : CStr) : CStr := src.take n

/-- Trace of the externally visible actions (syscalls, logging, callback
invocations) a modelled C function performs, in program order. -/
inductive Ev
  | mq_unlink (name : CStr)
  | mq_open (name : CStr)
  | mq_close (name : CStr)
  | sem_init
  | sem_destroy
  | sem_wait
  | sem_post
  | sem_timedwait (deadline : timespec)
  | notify_arm
  | mq_send (payload : CStr)
  | mq_receive
  | cb_invoke (payload : CStr) (len : Nat)
  | free_buf
  | free_ctx
  | log (msg : String)
deriving DecidableEq, Repr

/-- recognizer for unlink events. -/
def isUnlinkEv : Ev → Bool
  | Ev.mq_unlink _ => true
  | _ => false

/-- recognizer for close events. -/
def isCloseEv : Ev → Bool
  | Ev.mq_close _ => true
  | _ => false

/-- recognizer for `free` events. -/
def isFreeEv : Ev → Bool
  | Ev.free_buf => true
  | Ev.free_ctx => true
  | _ => false

/-- recognizer for `mq_receive` events. -/
def isReceiveEv : Ev → Bool
  | Ev.mq_receive => true
  | _ => false

/-- recognizer for `mq_send` events. -/
def isSendEv : Ev → Bool
  | Ev.mq_send _ => true
  | _ => false

/-- recognizer for notification (re-)arm events. -/
def isArmEv : Ev → Bool
  | Ev.notify_arm => true
  | _ => false

/-- recognizer for gate-signal events. -/
def isPostEv : Ev → Bool
  | Ev.sem_post => true
  | _ => false

/-- recognizer for timed-wait events. -/
def isTimedwaitEv : Ev → Bool
  | Ev.sem_timedwait _ => true
  | _ => false

/-- recognizer for application-callback invocations. -/
def isCbEv : Ev → Bool
  | Ev.cb_invoke _ _ => true
  | _ => false

/-- `struct mq_ctx`.  `mq_rd` models the contents of the queue the read
descriptor refers to; `armed` models whether a one-shot `mq_notify`
registration is currently in place for it; `sem` is the gate count. -/
structure mq_ctx where
  mq_rd : List CStr
  mq_wr_name : CStr
  mq_rd_name : CStr
  role : ipc_role
  sem : Nat
  armed : Bool
deriving DecidableEq, Repr

/-- process-wide state: the file-scope globals `_mq_recv_cb` (modelled as
an opaque function-pointer value) and `_mq_recv_buf` (its contents). -/
structure Globals where
  recv_cb : Option Nat
  recv_buf : Option CStr
deriving DecidableEq, Repr

/-- the OS message-queue namespace: which queue names currently exist. -/
structure World where
  queues : List CStr
deriving DecidableEq, Repr

/-- effect of `mq_unlink(name)` on the namespace (return value ignored by
the code everywhere it is called). -/
def world_unlink (w : World) (name : CStr) : World :=
  { queues := w.queues.filter (fun q => q != name) }

/-- result of `_mq_notify_update`. -/
structure NotifyOut where
  ret : Int
  ctx : mq_ctx
  tr : List Ev
deriving DecidableEq, Repr

/-- `_mq_notify_update(ctx, cb)`: registers a one-shot notification on the
read queue.  `armOk` is the OS oracle for `mq_notify` succeeding. -/
def _mq_notify_update (ctx : mq_ctx) (armOk : Bool) : NotifyOut :=
  if armOk then
    { ret := 0, ctx := { ctx with armed := true }, tr := [Ev.notify_arm] }
  else
    { ret := -1, ctx := { ctx with armed := false },
      tr := [Ev.notify_arm, Ev.log "mq_notify failed"] }

/-- result of `_mq_recv`. -/
structure RecvOut where
  ret : Int
  buf : CStr
  ctx : mq_ctx
  tr : List Ev
deriving DecidableEq, Repr

/-- `_mq_recv(ipc, buf, len)`: one `mq_receive` on the read descriptor.
Fails when the buffer is smaller than the queue's message size, or when
the (non-blocking) queue is empty; otherwise dequeues one message and
returns its length. -/
def _mq_recv (ctx : mq_ctx) (len : Nat) : RecvOut :=
  if len < MQ_MSGSIZE then
    { ret := -1, buf := [], ctx := ctx,
      tr := [Ev.mq_receive, Ev.log "mq_receive failed"] }
  else
    match ctx.mq_rd with
    | [] =>
      { ret := -1, buf := [], ctx := ctx,
        tr := [Ev.mq_receive, Ev.log "mq_receive failed"] }
    | m :: rest =>
      { ret := (m.length : Int), buf := m, ctx := { ctx with mq_rd := rest },
        tr := [Ev.mq_receive] }

/-- `_mq_send(ipc, buf, len)`: one `mq_send` of the first `len` bytes of
`buf` at priority `MQ_MSG_PRIO`; fails when `len` exceeds the queue's
message size, otherwise returns `len`. -/
def _mq_send (buf : CStr) (len : Nat) : Int × List Ev :=
  if len > MQ_MSGSIZE then
    (-1, [Ev.log "mq_send failed"])
  else
    ((len : Int), [Ev.mq_send (buf.take len)])

/-- result of a data-phase notification firing (`on_recv`). -/
structure FireOut where
  g : Globals
  ctx : mq_ctx
  tr : List Ev
deriving DecidableEq, Repr

/-- `on_recv(sv)`: the data-phase notification handler.  The firing itself
consumes the one-shot registration (`armed := false`); the handler first
re-arms itself for `on_recv`, then performs one receive of up to
`MAX_IPC_MESSAGE_SIZE` into the process-wide buffer, then invokes the
process-wide callback if one is registered. -/
def on_recv (g : Globals) (ctx : mq_ctx) (armOk : Bool) : FireOut :=
  let ctx0 : mq_ctx := { ctx with armed := false }
  let nu := _mq_notify_update ctx0 armOk
  if nu.ret = -1 then
    { g := g, ctx := nu.ctx, tr := nu.tr ++ [Ev.log "_mq_notify_update failed!"] }
  else
    let rc := _mq_recv nu.ctx MAX_IPC_MESSAGE_SIZE
    if rc.ret = -1 then
      { g := g, ctx := rc.ctx, tr := nu.tr ++ rc.tr ++ [Ev.log "_mq_recv failed!"] }
    else
      let g1 : Globals := { g with recv_buf := some rc.buf }
      match g1.recv_cb with
      | some _ =>
        { g := g1, ctx := rc.ctx,
          tr := nu.tr ++ rc.tr ++ [Ev.cb_invoke rc.buf rc.ret.toNat] }
      | none =>
        { g := g1, ctx := rc.ctx, tr := nu.tr ++ rc.tr }

/-- result of a handshake-phase notification firing (`on_connect`). -/
structure ConnOut where
  ctx : mq_ctx
  tr : List Ev
deriving DecidableEq, Repr

/-- `on_connect(sv)`: the handshake-phase notification handler.  Re-arms
the notification (for `on_recv`, switching the endpoint to the data
phase), receives one message into a local buffer, then either stores the
payload as the peer name (server) or validates the echoed confirmation
against the endpoint's own read-queue name (client); the gate is signaled
only on the successful paths. -/
def on_connect (ctx : mq_ctx) (armOk : Bool) : ConnOut :=
  let ctx0 : mq_ctx := { ctx with armed := false }
  let nu := _mq_notify_update ctx0 armOk
  if nu.ret = -1 then
    { ctx := nu.ctx, tr := nu.tr ++ [Ev.log "_mq_notify_update failed!"] }
  else
    let rc := _mq_recv nu.ctx MAX_IPC_MESSAGE_SIZE
    if rc.ret ≤ 0 then
      { ctx := rc.ctx, tr := nu.tr ++ rc.tr ++ [Ev.log "_mq_recv failed!"] }
    else
      if rc.ctx.role = ipc_role.IPC_SERVER then
        { ctx := { rc.ctx with
                     mq_wr_name := strncpyL MAX_MQ_NAME rc.buf,
                     sem := rc.ctx.sem + 1 },
          tr := nu.tr ++ rc.tr ++ [Ev.sem_post] }
      else
        if rc.buf = rc.ctx.mq_rd_name then
          { ctx := { rc.ctx with sem := rc.ctx.sem + 1 },
            tr := nu.tr ++ rc.tr ++ [Ev.sem_post] }
        else
          { ctx := rc.ctx,
            tr := nu.tr ++ rc.tr ++ [Ev.log "connect response check failed!"] }

/-- result of `_mq_init`. -/
structure InitOut where
  res : Option mq_ctx
  w : World
  g : Globals
  tr : List Ev
deriving DecidableEq, Repr

/-- `_mq_init(name, role)`.  Oracles: `callocOk` for the context
allocation, `semOk` for `sem_init`, `bufOk` for the receive-buffer
allocation, `armOk` for the initial `mq_notify` registration.  The read
queue is opened with `O_RDWR | O_EXCL | O_CREAT | O_NONBLOCK` after the
name has been unlinked; none of the failure paths after a successful open
closes, unlinks or frees anything. -/
def _mq_init (w : World) (g : Globals) (name : CStr) (role : ipc_role)
    (callocOk semOk bufOk armOk : Bool) : InitOut :=
  if !callocOk then
    { res := none, w := w, g := g, tr := [Ev.log "malloc failed!"] }
  else
    let w1 := world_unlink w name
    let t1 : List Ev := [Ev.mq_unlink name]
    if name ∈ w1.queues then
      { res := none, w := w1, g := g,
        tr := t1 ++ [Ev.mq_open name, Ev.log "mq_open failed"] }
    else
      let w2 : World := { queues := name :: w1.queues }
      let ctx0 : mq_ctx :=
        { mq_rd := [], mq_wr_name := [],
          mq_rd_name := strncpyL MAX_MQ_NAME name,
          role := role, sem := 0, armed := false }
      let t2 := t1 ++ [Ev.mq_open name]
      if !semOk then
        { res := none, w := w2, g := g,
          tr := t2 ++ [Ev.sem_init, Ev.log "sem_init failed"] }
      else
        let t3 := t2 ++ [Ev.sem_init]
        if !bufOk then
          { res := none, w := w2, g := g, tr := t3 ++ [Ev.log "malloc failed!"] }
        else
          let g1 : Globals := { g with recv_buf := some [] }
          let nu := _mq_notify_update ctx0 armOk
          if nu.ret = -1 then
            { res := none, w := w2, g := g1,
              tr := t3 ++ nu.tr ++ [Ev.log "_mq_notify_update failed!"] }
          else
            { res := some nu.ctx, w := w2, g := g1, tr := t3 ++ nu.tr }

/-- `_mq_set_recv_cb(ipc, cb)`: stores `cb` in the process-wide variable
`_mq_recv_cb`, ignoring which endpoint it was called on, and returns 0. -/
def _mq_set_recv_cb (ipc : Nat) (g : Globals) (cb : Option Nat) : Int × Globals :=
  (0, { g with recv_cb := cb })

/-- result of `_mq_accept` when `sem_wait` returns. -/
structure AcceptOut where
  ret : Int
  ctx : mq_ctx
  tr : List Ev
deriving DecidableEq, Repr

/-- `_mq_accept(ipc)`: waits on the gate (`none` models a `sem_wait` that
never returns because the gate count is zero), then opens a write queue to
the name stored by the handshake handler and sends that same stored name
back as the confirmation payload. -/
def _mq_accept (w : World) (ctx : mq_ctx) : Option AcceptOut :=
  match ctx.sem with
  | 0 => none
  | Nat.succ k =>
    let ctx1 : mq_ctx := { ctx with sem := k }
    let t1 : List Ev := [Ev.sem_wait]
    if ctx1.mq_wr_name ∈ w.queues then
      let snd := _mq_send ctx1.mq_wr_name ctx1.mq_wr_name.length
      if snd.1 < 0 then
        some { ret := -1, ctx := ctx1,
               tr := t1 ++ [Ev.mq_open ctx1.mq_wr_name] ++ snd.2
                       ++ [Ev.log "_mq_send failed!"] }
      else
        some { ret := 0, ctx := ctx1,
               tr := t1 ++ [Ev.mq_open ctx1.mq_wr_name] ++ snd.2 }
    else
      some { ret := -1, ctx := ctx1,
             tr := t1 ++ [Ev.mq_open ctx1.mq_wr_name, Ev.log "mq_open failed"] }

/-- the absolute deadline `_mq_connect` computes for `sem_timedwait`:
`gettimeofday` time plus the 5000 ms default, with the source's carry of
microseconds into seconds, converted to a `timespec`. -/
def connectAbsTime (now : timeval) : timespec :=
  let timeout := connectTimeoutMs
  let usec := now.tv_usec + (timeout % 1000) * 1000
  let sec := now.tv_sec + timeout / 1000
  let p := if usec ≥ 1000000 then (sec + 1, usec - 1000000) else (sec, usec)
  { tv_sec := p.1, tv_nsec := p.2 * 1000 }

/-- result of `_mq_connect`. -/
structure ConnectOut where
  ret : Int
  err : Option Errno
  ctx : mq_ctx
  w : World
  tr : List Ev
deriving DecidableEq, Repr

/-- `_mq_connect(ipc, name)`: opens a write queue to `name` with
`O_WRONLY | O_EXCL` (non-creating: fails with `ENOENT` when no such queue
exists), records the peer name, sends the endpoint's own read-queue name,
and waits on the gate until the computed absolute deadline.
`gateSignals` is the number of gate signals the concurrently running
handshake handler delivers before the deadline; the timed wait fails with
`ETIMEDOUT` when the gate is never signaled. -/
def _mq_connect (w : World) (ctx : mq_ctx) (name : CStr) (now : timeval)
    (gateSignals : Nat) : ConnectOut :=
  if name ∈ w.queues then
    let ctx1 : mq_ctx := { ctx with mq_wr_name := strncpyL MAX_MQ_NAME name }
    let snd := _mq_send ctx1.mq_rd_name ctx1.mq_rd_name.length
    let t : List Ev := [Ev.mq_open name] ++ snd.2
    if snd.1 < 0 then
      { ret := -1, err := none, ctx := ctx1, w := w,
        tr := t ++ [Ev.log "_mq_send failed!"] }
    else
      let abs_time := connectAbsTime now
      let avail := ctx1.sem + gateSignals
      if avail = 0 then
        { ret := -1, err := some Errno.ETIMEDOUT, ctx := ctx1, w := w,
          tr := t ++ [Ev.sem_timedwait abs_time, Ev.log "connect failed"] }
      else
        { ret := 0, err := none, ctx := { ctx1 with sem := avail - 1 }, w := w,
          tr := t ++ [Ev.sem_timedwait abs_time] }
  else
    { ret := -1, err := some Errno.ENOENT, ctx := ctx, w := w,
      tr := [Ev.mq_open name, Ev.log "mq_open failed"] }

/-- result of `_mq_deinit`. -/
structure DeinitOut where
  w : World
  g : Globals
  tr : List Ev
deriving DecidableEq, Repr

/-- `_mq_deinit(ipc)`: closes both descriptors, unlinks the read-queue
name and then the write-queue name, destroys the gate, frees the
process-wide receive buffer if present, and frees the context. -/
def _mq_deinit (w : World) (g : Globals) (ipc : Option mq_ctx) : DeinitOut :=
  match ipc with
  | none => { w := w, g := g, tr := [] }
  | some ctx =>
    let w1 := world_unlink w ctx.mq_rd_name
    let w2 := world_unlink w1 ctx.mq_wr_name
    let tFree : List Ev :=
      match g.recv_buf with
      | some _ => [Ev.free_buf, Ev.free_ctx]
      | none => [Ev.free_ctx]
    { w := w2, g := g,
      tr := [Ev.mq_close ctx.mq_rd_name, Ev.mq_close ctx.mq_wr_name,
             Ev.mq_unlink ctx.mq_rd_name, Ev.mq_unlink ctx.mq_wr_name,
             Ev.sem_destroy] ++ tFree }

/-- whether an `_mq_init` outcome is the leak the failure paths after a
successful queue creation produce: a reported failure that leaves the
named queue in the namespace, with no close, no free, and only the initial
stale-name unlink in the trace. -/
def initLeakState (name : CStr) (r : InitOut) : Prop :=
  r.res = none ∧ name ∈ r.w.queues
    ∧ r.tr.filter isCloseEv = []
    ∧ r.tr.filter isFreeEv = []
    ∧ r.tr.filter isUnlinkEv = [Ev.mq_unlink name]

/-! Concrete states used by the closed counterexample and witness theorems. -/

/-- the well-known server queue name from the source's flow comment. -/
def srvName : CStr := "/IPC_SERVER.5555".toList

/-- a client read-queue name of the shape the flow comment describes. -/
def cliName : CStr := "/IPC_CLIENT.42".toList

/-- a server endpoint right after `_mq_init`, with one pending handshake
message (the client's declared read-queue name) in its read queue. -/
def c1_server_ctx : mq_ctx :=
  { mq_rd := [cliName], mq_wr_name := [], mq_rd_name := srvName,
    role := ipc_role.IPC_SERVER, sem := 0, armed := true }

/-- namespace in which both the server and the client queue exist. -/
def c1_world : World := { queues := [srvName, cliName] }

/-- the server endpoint after its handshake-phase handler consumed the
client's name and signaled the gate. -/
def c1_ctx_after : mq_ctx := (on_connect c1_server_ctx true).ctx

/-- a fully connected endpoint (both names known) about to be torn down. -/
def c2_ctx : mq_ctx :=
  { mq_rd := [], mq_wr_name := cliName, mq_rd_name := srvName,
    role := ipc_role.IPC_SERVER, sem := 0, armed := true }

/-- namespace at teardown time. -/
def c2_world : World := { queues := [srvName, cliName] }

/-- process-wide state with an allocated receive buffer. -/
def c2_g : Globals := { recv_cb := none, recv_buf := some [] }

/-- a client endpoint before `connect`. -/
def c3_ctx : mq_ctx :=
  { mq_rd := [], mq_wr_name := [], mq_rd_name := cliName,
    role := ipc_role.IPC_CLIENT, sem := 0, armed := true }

/-- an empty namespace: no server is listening. -/
def c3_world : World := { queues := [] }

/-- namespace containing a stale queue under the server's name. -/
def c7_world : World := { queues := [srvName] }

/-- pristine process-wide state. -/
def c7_g : Globals := { recv_cb := none, recv_buf := none }

/-- a client endpoint whose read queue holds the server's confirmation
payload, equal to its own read-queue name. -/
def c4_ctx : mq_ctx :=
  { mq_rd := [cliName], mq_wr_name := srvName, mq_rd_name := cliName,
    role := ipc_role.IPC_CLIENT, sem := 0, armed := true }

/-- namespace with a listening server that never calls `accept`. -/
def c5_world : World := { queues := [srvName] }

/-- a client endpoint about to `connect` to a server that never accepts. -/
def c5_ctx : mq_ctx :=
  { mq_rd := [], mq_wr_name := [], mq_rd_name := cliName,
    role := ipc_role.IPC_CLIENT, sem := 0, armed := true }

/-- a `gettimeofday` value chosen so that the microsecond carry matters. -/
def c5_now : timeval := { tv_sec := 1000, tv_usec := 999999 }

/-- process-wide state with a registered receive callback. -/
def c6_g : Globals := { recv_cb := some 1, recv_buf := some [] }

/-- a connected endpoint whose read queue is empty, so the receive in the
next notification firing fails with `EAGAIN`. -/
def c6_ctx : mq_ctx :=
  { mq_rd := [], mq_wr_name := srvName, mq_rd_name := cliName,
    role := ipc_role.IPC_CLIENT, sem := 0, armed := true }

/-- an application payload arriving after the failed receive. -/
def c6_msg : CStr := "ping".toList

/-- the endpoint state after the firing whose receive failed. -/
def c6_ctx_after : mq_ctx := (on_recv c6_g c6_ctx true).ctx

/-- the same endpoint once a later message has arrived in its read queue. -/
def c6_ctx_retry : mq_ctx := { c6_ctx_after with mq_rd := [c6_msg] }

/-- helper: unlinking a name removes it from the namespace, so the
exclusive-create open in `_mq_init` cannot fail with `EEXIST`. -/
theorem not_mem_world_unlink (w : World) (name : CStr) :
    name ∉ (world_unlink w name).queues := by
  simp [world_unlink]

/-- helper: a `mq_receive` return value cast from a natural length is
never the error value `-1`. -/
theorem natCast_ne_neg_one (n : Nat) : ¬ ((n : Int) = -1) := by omega

/-- helper: a `mq_send` return value cast from a natural length is never
negative. -/
theorem natCast_not_neg (n : Nat) : ¬ ((n : Int) < 0) := by omega

/-- helper: the length of a nonempty received message is positive. -/
theorem succCast_not_nonpos (n : Nat) : ¬ (((n + 1 : Nat) : Int) ≤ 0) := by omega

/-- helper: variant of the previous fact in the shape `simp` produces
after cast normalization. -/
theorem intCast_succ_not_nonpos (n : Nat) : ¬ ((n : Int) + 1 ≤ 0) := by omega

/-- C9: the receive callback is stored in a single process-wide variable
with last-writer-wins semantics: after any sequence of
`register_receive_callback` calls ending in `c`, the effective callback is
`c`'s argument, and the store is independent of which endpoint the call
was made on. -/
theorem set_recv_cb_last_writer_wins (g : Globals)
    (calls : List (Nat × Option Nat)) (c : Nat × Option Nat) :
    (((calls ++ [c]).foldl (fun acc p => (_mq_set_recv_cb p.1 acc p.2).2) g).recv_cb
      = c.2)
    ∧ ∀ (i j : Nat) (cb : Option Nat) (g2 : Globals),
        _mq_set_recv_cb i g2 cb = _mq_set_recv_cb j g2 cb := by
  constructor
  · simp [List.foldl_append, _mq_set_recv_cb]
  · intro i j cb g2
    rfl

/-- C2 (amended): `deinit` closes both queue handles and unlinks BOTH the
locally-created read-queue name and the peer's (write-queue) name; the
unlink events in its trace are exactly these two. -/
theorem deinit_closes_both_unlinks_both (w : World) (g : Globals) (ctx : mq_ctx) :
    (Ev.mq_close ctx.mq_rd_name ∈ (_mq_deinit w g (some ctx)).tr)
    ∧ (Ev.mq_close ctx.mq_wr_name ∈ (_mq_deinit w g (some ctx)).tr)
    ∧ ((_mq_deinit w g (some ctx)).tr.filter isUnlinkEv
        = [Ev.mq_unlink ctx.mq_rd_name, Ev.mq_unlink ctx.mq_wr_name]) := by
  cases hb : g.recv_buf <;>
    simp [_mq_deinit, hb, isUnlinkEv, isCloseEv, List.filter]

/-- C2 counterexample: teardown of a connected server endpoint unlinks the
peer's queue name `/IPC_CLIENT.42`, which differs from the endpoint's own
read-queue name — refuting "the peer's queue name is never unlinked by
this endpoint's teardown". -/
theorem deinit_unlinks_peer_counterexample :
    (Ev.mq_unlink cliName ∈ (_mq_deinit c2_world c2_g (some c2_ctx)).tr)
    ∧ cliName ≠ c2_ctx.mq_rd_name := by decide

/-- C7: `init` unlinks any stale queue with the same name before the
exclusive-create open of the read queue, so even when a queue named `name`
already exists the open succeeds: `init` returns a context, the queue
exists afterwards, and the trace is unlink-then-open followed by the
remaining setup. -/
theorem init_unlinks_stale_then_creates (w : World) (g : Globals) (name : CStr)
    (role : ipc_role) (h : name ∈ w.queues) :
    (((_mq_init w g name role true true true true).res).isSome = true)
    ∧ (name ∈ (_mq_init w g name role true true true true).w.queues)
    ∧ ((_mq_init w g name role true true true true).tr
        = [Ev.mq_unlink name, Ev.mq_open name, Ev.sem_init, Ev.notify_arm]) := by
  have hnm := not_mem_world_unlink w name
  simp [_mq_init, _mq_notify_update, hnm]

/-- C7 witness: a stale `/IPC_SERVER.5555` queue exists, and `init` on that
name still succeeds, after unlinking the stale name first. -/
theorem init_unlinks_stale_witness :
    (srvName ∈ c7_world.queues)
    ∧ ((((_mq_init c7_world c7_g srvName ipc_role.IPC_SERVER true true true true).res).isSome = true)
      ∧ (srvName ∈ (_mq_init c7_world c7_g srvName ipc_role.IPC_SERVER true true true true).w.queues)
      ∧ ((_mq_init c7_world c7_g srvName ipc_role.IPC_SERVER true true true true).tr
          = [Ev.mq_unlink srvName, Ev.mq_open srvName, Ev.sem_init, Ev.notify_arm])) :=
  ⟨by decide,
   init_unlinks_stale_then_creates c7_world c7_g srvName ipc_role.IPC_SERVER (by decide)⟩

/-- C3: when no queue named `name` exists, `connect` fails immediately from
the non-creating exclusive open with `ENOENT`: its whole trace is the
failed open plus the log line, so it never sends and never reaches the
timed wait, and the error is NotFound, not Timeout. -/
theorem connect_no_server_fails_with_enoent (w : World) (ctx : mq_ctx)
    (name : CStr) (now : timeval) (gs : Nat) (h : name ∉ w.queues) :
    ((_mq_connect w ctx name now gs).ret = -1)
    ∧ ((_mq_connect w ctx name now gs).err = some Errno.ENOENT)
    ∧ ((_mq_connect w ctx name now gs).tr
        = [Ev.mq_open name, Ev.log "mq_open failed"]) := by
  simp [_mq_connect, h]

/-- C3 witness: connecting to `/IPC_SERVER.5555` in an empty namespace
fails with `ENOENT` before any send or timed wait. -/
theorem connect_no_server_witness :
    (srvName ∉ c3_world.queues)
    ∧ (((_mq_connect c3_world c3_ctx srvName ⟨0, 0⟩ 0).ret = -1)
      ∧ ((_mq_connect c3_world c3_ctx srvName ⟨0, 0⟩ 0).err = some Errno.ENOENT)
      ∧ ((_mq_connect c3_world c3_ctx srvName ⟨0, 0⟩ 0).tr
          = [Ev.mq_open srvName, Ev.log "mq_open failed"])) :=
  ⟨by decide,
   connect_no_server_fails_with_enoent c3_world c3_ctx srvName ⟨0, 0⟩ 0 (by decide)⟩

/-- C4: in the client-side handshake handler, the gate is signaled exactly
when the received confirmation payload equals the client's own read-queue
name; on mismatch the gate count is unchanged, so the failure can reach
`connect` only through the timed wait expiring. -/
theorem on_connect_client_echo_gate (ctx : mq_ctx) (buf : CStr)
    (rest : List CStr) (h1 : ctx.role = ipc_role.IPC_CLIENT)
    (h2 : ctx.mq_rd = buf :: rest) (h3 : ctx.mq_rd_name ≠ []) :
    ((on_connect ctx true).tr.filter isPostEv
      = if buf = ctx.mq_rd_name then [Ev.sem_post] else [])
    ∧ ((on_connect ctx true).ctx.sem
      = if buf = ctx.mq_rd_name then ctx.sem + 1 else ctx.sem) := by
  rcases buf with _ | ⟨c, cs⟩
  · have hne : ¬ (([] : CStr) = ctx.mq_rd_name) := fun hh => h3 hh.symm
    simp [on_connect, _mq_notify_update, _mq_recv, h2, hne, isPostEv,
          MAX_IPC_MESSAGE_SIZE, MQ_MSGSIZE, List.filter]
  · by_cases hbuf : (c :: cs : CStr) = ctx.mq_rd_name
    · simp [on_connect, _mq_notify_update, _mq_recv, h2, h1, hbuf, h3, isPostEv,
            intCast_succ_not_nonpos, MAX_IPC_MESSAGE_SIZE, MQ_MSGSIZE, List.filter]
    · simp [on_connect, _mq_notify_update, _mq_recv, h2, h1, hbuf, isPostEv,
            intCast_succ_not_nonpos, MAX_IPC_MESSAGE_SIZE, MQ_MSGSIZE, List.filter]

/-- C4 witness: a client whose pending confirmation equals its own
read-queue name signals the gate exactly once. -/
theorem on_connect_client_echo_witness :
    (c4_ctx.role = ipc_role.IPC_CLIENT ∧ c4_ctx.mq_rd = cliName :: []
      ∧ c4_ctx.mq_rd_name ≠ [])
    ∧ (((on_connect c4_ctx true).tr.filter isPostEv
        = if cliName = c4_ctx.mq_rd_name then [Ev.sem_post] else [])
      ∧ ((on_connect c4_ctx true).ctx.sem
        = if cliName = c4_ctx.mq_rd_name then c4_ctx.sem + 1 else c4_ctx.sem)) :=
  ⟨⟨by decide, by decide, by decide⟩,
   on_connect_client_echo_gate c4_ctx cliName [] (by decide) (by decide) (by decide)⟩

/-- C5: with a valid `gettimeofday` result, the absolute deadline `connect`
hands to the timed wait is exactly the start time plus 5000 ms, with the
nanosecond field kept in range; when the gate is never signaled, `connect`
performs its timed wait against that deadline and returns the Timeout
error. -/
theorem connect_timeout_deadline (w : World) (ctx : mq_ctx) (name : CStr)
    (now : timeval) (h1 : now.tv_usec < 1000000) (h2 : name ∈ w.queues)
    (h3 : ctx.mq_rd_name.length ≤ MQ_MSGSIZE) (h4 : ctx.sem = 0) :
    (timespecNs (connectAbsTime now)
      = timevalUs now * 1000 + connectTimeoutMs * 1000000)
    ∧ ((connectAbsTime now).tv_nsec < 1000000000)
    ∧ ((_mq_connect w ctx name now 0).ret = -1)
    ∧ ((_mq_connect w ctx name now 0).err = some Errno.ETIMEDOUT)
    ∧ (Ev.sem_timedwait (connectAbsTime now) ∈ (_mq_connect w ctx name now 0).tr) := by
  have habs : connectAbsTime now
      = { tv_sec := now.tv_sec + 5, tv_nsec := now.tv_usec * 1000 } := by
    have hc : ¬ (1000000 ≤ now.tv_usec) := by omega
    simp [connectAbsTime, connectTimeoutMs, hc]
  refine ⟨?_, ?_, ?_⟩
  · rw [habs]
    simp only [timespecNs, timevalUs, connectTimeoutMs]
    ring
  · rw [habs]
    simp only []
    omega
  · have hsend : ¬ (ctx.mq_rd_name.length > MQ_MSGSIZE) := Nat.not_lt.mpr h3
    simp [_mq_connect, h2, _mq_send, hsend, natCast_not_neg, h4]

/-- C5 witness: connecting to a listening server that never accepts, from
start time 1000 s + 999999 us, times out against the deadline 1005 s +
999999000 ns, exactly 5000 ms later. -/
theorem connect_timeout_deadline_witness :
    (c5_now.tv_usec < 1000000 ∧ srvName ∈ c5_world.queues
      ∧ c5_ctx.mq_rd_name.length ≤ MQ_MSGSIZE ∧ c5_ctx.sem = 0)
    ∧ ((timespecNs (connectAbsTime c5_now)
        = timevalUs c5_now * 1000 + connectTimeoutMs * 1000000)
      ∧ ((connectAbsTime c5_now).tv_nsec < 1000000000)
      ∧ ((_mq_connect c5_world c5_ctx srvName c5_now 0).ret = -1)
      ∧ ((_mq_connect c5_world c5_ctx srvName c5_now 0).err = some Errno.ETIMEDOUT)
      ∧ (Ev.sem_timedwait (connectAbsTime c5_now)
          ∈ (_mq_connect c5_world c5_ctx srvName c5_now 0).tr)) :=
  ⟨⟨by decide, by decide, by decide, by decide⟩,
   connect_timeout_deadline c5_world c5_ctx srvName c5_now
     (by decide) (by decide) (by decide) (by decide)⟩

/-- C1 (amended): after the server-side handshake handler receives the
client's declared read-queue name and signals the gate, a successful
`accept` opens a write queue to that stored name and sends back, as the
confirmation payload, exactly that stored name — the name received from
the client, not the server's own read-queue name. -/
theorem accept_sends_received_client_name (w : World) (ctx0 : mq_ctx) (p : CStr)
    (rest : List CStr) (h1 : ctx0.role = ipc_role.IPC_SERVER)
    (h2 : ctx0.mq_rd = p :: rest) (h3 : p ≠ [])
    (h4 : p.length ≤ MAX_MQ_NAME) (h5 : p ∈ w.queues) :
    ((on_connect ctx0 true).ctx.mq_wr_name = p)
    ∧ ((on_connect ctx0 true).ctx.sem = ctx0.sem + 1)
    ∧ (_mq_accept w (on_connect ctx0 true).ctx
        = some { ret := 0,
                 ctx := { (on_connect ctx0 true).ctx with sem := ctx0.sem },
                 tr := [Ev.sem_wait, Ev.mq_open p, Ev.mq_send p] }) := by
  have htake : strncpyL MAX_MQ_NAME p = p := by
    simp [strncpyL, List.take_of_length_le h4]
  have hpos : ¬ (((p.length : Nat) : Int) ≤ 0) := by
    have := List.length_pos.mpr h3
    omega
  have hoc : (on_connect ctx0 true).ctx
      = { ctx0 with mq_rd := rest, mq_wr_name := p,
                    sem := ctx0.sem + 1, armed := true } := by
    simp [on_connect, _mq_notify_update, _mq_recv, h2, h1, hpos, htake,
          MAX_IPC_MESSAGE_SIZE, MQ_MSGSIZE]
  have h4' : ¬ (p.length > MQ_MSGSIZE) := by
    simp only [MAX_MQ_NAME] at h4
    simp only [MQ_MSGSIZE]
    omega
  refine ⟨by rw [hoc], by rw [hoc], ?_⟩
  rw [hoc]
  simp [_mq_accept, _mq_send, h5, h4', natCast_not_neg, List.take_length]

/-- C1 counterexample: a concrete successful accept (return 0) whose
confirmation payload is the client's name `/IPC_CLIENT.42`, which differs
from the server endpoint's read-queue name `/IPC_SERVER.5555` — refuting
"the bytes sent as confirmation equal the server endpoint's read-queue
name". -/
theorem accept_confirmation_counterexample :
    (_mq_accept c1_world c1_ctx_after
      = some { ret := 0, ctx := { c1_ctx_after with sem := 0 },
               tr := [Ev.sem_wait, Ev.mq_open cliName, Ev.mq_send cliName] })
    ∧ cliName ≠ c1_ctx_after.mq_rd_name := by decide

/-- C1 witness: the amended theorem applied to the concrete handshake in
which the server receives `/IPC_CLIENT.42`. -/
theorem accept_sends_received_client_name_witness :
    (c1_server_ctx.role = ipc_role.IPC_SERVER
      ∧ c1_server_ctx.mq_rd = cliName :: []
      ∧ cliName ≠ ([] : CStr)
      ∧ cliName.length ≤ MAX_MQ_NAME
      ∧ cliName ∈ c1_world.queues)
    ∧ (((on_connect c1_server_ctx true).ctx.mq_wr_name = cliName)
      ∧ ((on_connect c1_server_ctx true).ctx.sem = c1_server_ctx.sem + 1)
      ∧ (_mq_accept c1_world (on_connect c1_server_ctx true).ctx
          = some { ret := 0,
                   ctx := { (on_connect c1_server_ctx true).ctx
                              with sem := c1_server_ctx.sem },
                   tr := [Ev.sem_wait, Ev.mq_open cliName, Ev.mq_send cliName] })) :=
  ⟨⟨by decide, by decide, by decide, by decide, by decide⟩,
   accept_sends_received_client_name c1_world c1_server_ctx cliName []
     (by decide) (by decide) (by decide) (by decide) (by decide)⟩

/-- C6 (amended): every notification firing re-arms before receiving and
never retries the arm (exactly one arm attempt per firing, as the first
action, in both the handshake-phase and data-phase handlers); on either
failure the handler logs and returns.  A re-arm failure leaves the
endpoint unarmed, so no further notifications are delivered for it; a
receive failure happens after the re-arm already succeeded, so the
notification registration remains in place. -/
theorem dispatcher_rearm_discipline (g : Globals) (ctx : mq_ctx) (armOk : Bool) :
    ((on_recv g ctx armOk).tr.head? = some Ev.notify_arm
      ∧ (on_recv g ctx armOk).tr.filter isArmEv = [Ev.notify_arm]
      ∧ (on_connect ctx armOk).tr.head? = some Ev.notify_arm
      ∧ (on_connect ctx armOk).tr.filter isArmEv = [Ev.notify_arm])
    ∧ ((on_recv g ctx false).tr.filter isReceiveEv = []
      ∧ Ev.log "_mq_notify_update failed!" ∈ (on_recv g ctx false).tr
      ∧ (on_recv g ctx false).ctx.armed = false
      ∧ (on_connect ctx false).tr.filter isReceiveEv = []
      ∧ Ev.log "_mq_notify_update failed!" ∈ (on_connect ctx false).tr
      ∧ (on_connect ctx false).ctx.armed = false)
    ∧ ((on_recv g { ctx with mq_rd := [] } true).tr.filter isCbEv = []
      ∧ Ev.log "_mq_recv failed!" ∈ (on_recv g { ctx with mq_rd := [] } true).tr
      ∧ (on_recv g { ctx with mq_rd := [] } true).ctx.armed = true
      ∧ (on_connect { ctx with mq_rd := [] } true).tr.filter isPostEv = []
      ∧ Ev.log "_mq_recv failed!" ∈ (on_connect { ctx with mq_rd := [] } true).tr) := by
  refine ⟨⟨?_, ?_, ?_, ?_⟩, ?_, ?_⟩
  · cases armOk <;> cases hrd : ctx.mq_rd <;> cases hcb : g.recv_cb <;>
      simp [on_recv, _mq_notify_update, _mq_recv, hrd, hcb,
            natCast_ne_neg_one, MAX_IPC_MESSAGE_SIZE, MQ_MSGSIZE]
  · cases armOk <;> cases hrd : ctx.mq_rd <;> cases hcb : g.recv_cb <;>
      simp [on_recv, _mq_notify_update, _mq_recv, hrd, hcb, isArmEv,
            natCast_ne_neg_one, MAX_IPC_MESSAGE_SIZE, MQ_MSGSIZE, List.filter]
  · cases armOk <;> cases hrd : ctx.mq_rd <;>
      (simp [on_connect, _mq_notify_update, _mq_recv, hrd,
             MAX_IPC_MESSAGE_SIZE, MQ_MSGSIZE] <;>
       (try (split_ifs <;> simp)))
  · cases armOk <;> cases hrd : ctx.mq_rd <;>
      (simp [on_connect, _mq_notify_update, _mq_recv, hrd, isArmEv,
             MAX_IPC_MESSAGE_SIZE, MQ_MSGSIZE, List.filter] <;>
       (try (split_ifs <;> simp [isArmEv, List.filter])))
  · refine ⟨?_, ?_, ?_, ?_, ?_, ?_⟩ <;>
      simp [on_recv, on_connect, _mq_notify_update, isReceiveEv, List.filter]
  · refine ⟨?_, ?_, ?_, ?_, ?_⟩ <;>
      simp [on_recv, on_connect, _mq_notify_update, _mq_recv, isCbEv, isPostEv,
            MAX_IPC_MESSAGE_SIZE, MQ_MSGSIZE, List.filter]

/-- C6 counterexample: after a firing whose receive fails (empty queue),
the endpoint is still armed — the re-arm already succeeded — and a later
notification firing still delivers a message to the registered callback,
refuting "no further notifications are delivered for that endpoint" for
the receive-failure case. -/
theorem dispatcher_stop_claim_counterexample :
    (Ev.log "_mq_recv failed!" ∈ (on_recv c6_g c6_ctx true).tr)
    ∧ (c6_ctx_after.armed = true)
    ∧ ((on_recv c6_g c6_ctx_retry true).tr.filter isCbEv
        = [Ev.cb_invoke c6_msg 4]) := by decide

/-- C8: for a message arriving in the data phase, the handler performs
exactly one receive of up to the maximum message size into the shared
process-wide buffer and pops the message from the queue; with no callback
registered the message is consumed and discarded (no callback event), and
with a callback registered it is invoked exactly once, with the buffer
contents and the received length. -/
theorem on_recv_at_most_once (g : Globals) (ctx : mq_ctx) (m : CStr)
    (rest : List CStr) (c : Nat) :
    (((on_recv { g with recv_cb := none }
        { ctx with mq_rd := m :: rest } true).tr.filter isReceiveEv
        = [Ev.mq_receive])
      ∧ ((on_recv { g with recv_cb := none }
          { ctx with mq_rd := m :: rest } true).ctx.mq_rd = rest)
      ∧ ((on_recv { g with recv_cb := none }
          { ctx with mq_rd := m :: rest } true).g.recv_buf = some m)
      ∧ ((on_recv { g with recv_cb := none }
          { ctx with mq_rd := m :: rest } true).tr.filter isCbEv = []))
    ∧ (((on_recv { g with recv_cb := some c }
        { ctx with mq_rd := m :: rest } true).tr.filter isReceiveEv
        = [Ev.mq_receive])
      ∧ ((on_recv { g with recv_cb := some c }
          { ctx with mq_rd := m :: rest } true).ctx.mq_rd = rest)
      ∧ ((on_recv { g with recv_cb := some c }
          { ctx with mq_rd := m :: rest } true).g.recv_buf = some m)
      ∧ ((on_recv { g with recv_cb := some c }
          { ctx with mq_rd := m :: rest } true).tr.filter isCbEv
          = [Ev.cb_invoke m m.length])) := by
  refine ⟨⟨?_, ?_, ?_, ?_⟩, ⟨?_, ?_, ?_, ?_⟩⟩ <;>
    simp [on_recv, _mq_notify_update, _mq_recv, isReceiveEv, isCbEv,
          natCast_ne_neg_one, MAX_IPC_MESSAGE_SIZE, MQ_MSGSIZE, List.filter]

/-- C10: when any step of `init` after the successful exclusive creation of
the read queue fails (semaphore initialization, receive-buffer allocation,
or arming the notification), `init` returns null, yet the created queue
stays in the namespace — never closed, never unlinked after creation (the
only unlink is the pre-creation stale-name unlink) — and the context is
never freed. -/
theorem init_failure_leaks_created_queue (w : World) (g : Globals)
    (name : CStr) (role : ipc_role) (b n : Bool) :
    initLeakState name (_mq_init w g name role true false b n)
    ∧ initLeakState name (_mq_init w g name role true true false n)
    ∧ initLeakState name (_mq_init w g name role true true true false) := by
  have hnm := not_mem_world_unlink w name
  refine ⟨?_, ?_, ?_⟩ <;>
    simp [initLeakState, _mq_init, _mq_notify_update, hnm,
          isCloseEv, isFreeEv, isUnlinkEv, List.filter]
